import Mathlib

/-!
# Verification of the `godot_interface` process-and-protocol layer

A shallow embedding of `src/godot_interface/GodotEnvironment.py` (the current
version of the driver; `src/GodotEnvironment.py` and
`src/build/lib/godot_interface/GodotEnvironment.py` are older copies that agree
on everything verified here unless noted in a comment).

Conventions of the embedding:
* bytes are `Nat` values (< 256 in practice), byte strings are `List Nat`;
* a TCP receive stream is a `List (List Nat)`: the successive chunks that
  `sock.recv` will deliver; an exhausted stream (or an empty scheduled chunk)
  stands for a closed peer, for which `recv` returns the empty byte string;
* Python exceptions are modelled by `Except PyErr`; machine integers are `Nat`
  with explicit reduction `% 2^32` where the source (numpy's generator)
  computes modulo 2^32; Python's true division `/` on rewards is division in `ℚ`;
* the mutable `GodotEnvironment` instance is an explicit `Session` record that
  every method takes and returns; socket and subprocess side effects are
  recorded in an event trace `List Ev`.
-/

set_option autoImplicit false
set_option maxRecDepth 100000

namespace GodotInterface

/-! ## Bytes and big-endian 4-byte length headers -/

/-- Truncation to 32 bits (numpy's generator arithmetic is modulo `2^32`). -/
def u32 (x : Nat) : Nat := x % 4294967296

/-- `struct.pack('>I', n)`: unsigned big-endian 4-byte encoding. -/
def be4enc (n : Nat) : List Nat :=
  [n / 16777216 % 256, n / 65536 % 256, n / 256 % 256, n % 256]

/-- `struct.unpack('>I', bs)[0]` for a 4-byte string `bs`. -/
def be4dec : List Nat → Nat
  | [a, b, c, d] => ((a * 256 + b) * 256 + c) * 256 + d
  | _ => 0

/-! ## numpy's legacy pseudo-random generator

`self.random_generator = np.random.RandomState(seed=self.seed)` and
`self.random_generator.randint(low=0, high=1e6)` in the source.  numpy's
legacy `RandomState` is a Mersenne twister (MT19937): seeding an integer
seed `s < 2^32` fills the 624-word key with the Knuth recurrence
`mt[i] = 1812433253 * (mt[i-1] xor (mt[i-1] >> 30)) + i (mod 2^32)`, and
`randint(0, 10^6)` draws 32-bit outputs, masks them to 20 bits
(`_gen_mask 999999 = 2^20 - 1`) and rejects values above `999999`.
The rejection loop is bounded here by explicit fuel, returning `none` on
exhaustion (an artifact of the embedding; each attempt is accepted with
probability `10^6 / 2^20 ≈ 0.954`). -/

/-- Key initialisation, producing `mt[i..i+k-1]` from `mt[i-1] = prev`. -/
def mtInitGo : Nat → Nat → Nat → List Nat
  | _, _, 0 => []
  | prev, i, k + 1 =>
      let v := u32 (1812433253 * (prev ^^^ (prev >>> 30)) + i)
      v :: mtInitGo v (i + 1) k

/-- The 624-word MT19937 key obtained from an integer seed. -/
def mtInit (seed : Nat) : List Nat :=
  let s0 := u32 seed
  s0 :: mtInitGo s0 1 623

/-- One in-place step of the MT19937 twist at index `i`. -/
def mtTwistStep (mt : List Nat) (i : Nat) : List Nat :=
  let a := mt.getD i 0
  let b := mt.getD ((i + 1) % 624) 0
  let c := mt.getD ((i + 397) % 624) 0
  let y := (a &&& 2147483648) ||| (b &&& 2147483647)
  let v := c ^^^ (y >>> 1) ^^^ (if y % 2 = 1 then 2567483615 else 0)
  mt.set i v

def mtTwistGo : List Nat → Nat → Nat → List Nat
  | mt, _, 0 => mt
  | mt, i, k + 1 => mtTwistGo (mtTwistStep mt i) (i + 1) k

/-- The MT19937 twist regenerating all 624 key words. -/
def mtTwist (mt : List Nat) : List Nat := mtTwistGo mt 0 624

/-- The MT19937 tempering of one key word into one 32-bit output. -/
def mtTemper (y0 : Nat) : Nat :=
  let y1 := y0 ^^^ (y0 >>> 11)
  let y2 := y1 ^^^ ((y1 <<< 7) &&& 2636928640)
  let y3 := y2 ^^^ ((y2 <<< 15) &&& 4022730752)
  y3 ^^^ (y3 >>> 18)

/-- The state of `np.random.RandomState`: the 624-word key and the position
of the next output in it. -/
structure MTState where
  key : List Nat
  pos : Nat
deriving Repr, DecidableEq

/-- `np.random.RandomState(seed=s)`: seeded key, position at the end so that
the first draw twists. -/
def mkRandomState (seed : Nat) : MTState := ⟨mtInit seed, 624⟩

/-- One 32-bit output of the generator. -/
def mtNext (s : MTState) : Nat × MTState :=
  if s.pos ≥ 624 then
    let k := mtTwist s.key
    (mtTemper (k.getD 0 0), ⟨k, 1⟩)
  else
    (mtTemper (s.key.getD s.pos 0), ⟨s.key, s.pos + 1⟩)

/-- Fuel bound for the rejection loop of `randint` (embedding artifact). -/
def randintFuel : Nat := 4096

/-- `random_generator.randint(low=0, high=1e6)`: masked rejection sampling
over `[0, 999999]` with mask `2^20 - 1`. -/
def randint : Nat → MTState → Option (Nat × MTState)
  | 0, _ => none
  | fuel + 1, s =>
      let (w, s') := mtNext s
      let v := w &&& 1048575
      if v ≤ 999999 then some (v, s') else randint fuel s'

/-- The seeds attached to the first `k` Init requests of a session whose
generator starts in state `g` (one fresh draw per `reset`). -/
def initSeeds (fuel : Nat) (g : MTState) : Nat → Option (List Nat)
  | 0 => some []
  | k + 1 =>
      match randint fuel g with
      | none => none
      | some (v, g') => (initSeeds fuel g' k).map (v :: ·)

/-! ## `json.dumps` for outgoing requests

Python's `json.dumps` with its defaults: members in insertion order,
separators `", "` and `": "`, `ensure_ascii=True` (every character outside
`0x20..0x7e` escaped, so the output is pure ASCII and its UTF-8 encoding is
the character codes). -/

def hexDigit (n : Nat) : Char := if n < 10 then Char.ofNat (48 + n) else Char.ofNat (87 + n)

def hex4 (n : Nat) : List Char :=
  [hexDigit (n / 4096 % 16), hexDigit (n / 256 % 16), hexDigit (n / 16 % 16), hexDigit (n % 16)]

/-- The escaping `json.dumps` applies inside a string literal. -/
def jsonEscapeChar (c : Char) : List Char :=
  if c = '"' then ['\\', '"']
  else if c = '\\' then ['\\', '\\']
  else if c = Char.ofNat 10 then ['\\', 'n']
  else if c = Char.ofNat 9 then ['\\', 't']
  else if c = Char.ofNat 13 then ['\\', 'r']
  else if c = Char.ofNat 8 then ['\\', 'b']
  else if c = Char.ofNat 12 then ['\\', 'f']
  else if 32 ≤ c.toNat ∧ c.toNat ≤ 126 then [c]
  else if c.toNat < 65536 then '\\' :: 'u' :: hex4 c.toNat
  else
    let v := c.toNat - 65536
    ('\\' :: 'u' :: hex4 (55296 + v / 1024)) ++ ('\\' :: 'u' :: hex4 (56320 + v % 1024))

/-- A JSON string literal, quotes included. -/
def jsonString (s : String) : String :=
  "\"" ++ String.mk ((s.data.map jsonEscapeChar).flatten) ++ "\""

def jsonBool (b : Bool) : String := if b then "true" else "false"

/-- One `"key": value` member. -/
def jsonMember (k : String) (v : String) : String := jsonString k ++ ": " ++ v

/-- A JSON object from already-serialised members, `json.dumps` layout. -/
def jsonObjStr (ms : List String) : String :=
  "\x7b" ++ String.intercalate ", " ms ++ "\x7d"

/-- A JSON array from already-serialised elements. -/
def jsonArrStr (xs : List String) : String :=
  "[" ++ String.intercalate ", " xs ++ "]"

/-- `.encode()`: the UTF-8 bytes of a `json.dumps` result (pure ASCII, see
above, so the bytes are the character codes). -/
def strBytes (s : String) : List Nat := s.data.map Char.toNat

/-! ## The spec's Message Codec framing (for comparison with the code)

Modelled from the spec: "a fixed-width (4-byte) unsigned big-endian length
prefixed to the UTF-8 JSON encoding of the request object"; these two
definitions follow the spec's words, not the source, and exist only to be
compared against what `_create_request` actually produces. -/

def specEncodeFrame (payload : List Nat) : List Nat := be4enc payload.length ++ payload

/-- Whether a byte string begins with a big-endian 4-byte header holding the
length of the rest (the spec's frame shape). -/
def isSpecFramed (bs : List Nat) : Bool :=
  decide (4 ≤ bs.length) && (bs.take 4 == be4enc (bs.length - 4))

/-! ## Python-level values and errors -/

/-- The exceptions the embedded code can raise.  `protocolViolation` is
modelled from the spec's error taxonomy (§7); the source never raises it and
it exists only so claims about it can be stated.  `outOfFuel` is the
embedding artifact for the bounded rejection loop of `randint`. -/
inductive PyErr where
  | attributeError
  | typeError
  | indexError
  | zeroDivisionError
  | osErrorInvalidArgument
  | outOfFuel
  | protocolViolation
deriving Repr, DecidableEq

/-- A Python value in the `"action"` slot of an actions entry.  A numpy
integer scalar is distinguished from a plain `int` (the source's
`isinstance(..., np.integer)` test); a Python float is carried by its `repr`
string, which is all `json.dumps` uses of it. -/
inductive ActVal where
  | npInt (n : Int)
  | pyInt (n : Int)
  | pyFloat (r : String)
  | pyStr (s : String)
deriving Repr, DecidableEq

/-- One entry of the caller-supplied `actions_data` list. -/
structure ActionEntry where
  name : String
  action : ActVal
deriving Repr, DecidableEq

/-- `_format_actions_data`: replaces every numpy-integer action by the plain
`int` of the same value, index by index, leaving every other entry untouched.
(The Python loop assigns into the caller's list; the caller's list after the
call is the returned list.) -/
def _format_actions_data : List ActionEntry → List ActionEntry
  | [] => []
  | e :: rest =>
      (match e.action with
       | .npInt n => { e with action := .pyInt n }
       | _ => e) :: _format_actions_data rest

/-- `json.dumps` of one action value; a numpy integer scalar is not JSON
serialisable and raises `TypeError`. -/
def jsonOfActionVal : ActVal → Except PyErr String
  | .npInt _ => .error .typeError
  | .pyInt n => .ok (toString n)
  | .pyFloat r => .ok r
  | .pyStr s => .ok (jsonString s)

/-- `json.dumps` of one `{"name": ..., "action": ...}` entry. -/
def jsonOfActionEntry (e : ActionEntry) : Except PyErr String :=
  (jsonOfActionVal e.action).map
    (fun v => jsonObjStr [jsonMember "name" (jsonString e.name), jsonMember "action" v])

/-- `json.dumps` of the actions list, left to right. -/
def jsonOfActionList : List ActionEntry → Except PyErr (List String)
  | [] => .ok []
  | e :: rest =>
      match jsonOfActionEntry e, jsonOfActionList rest with
      | .ok v, .ok vs => .ok (v :: vs)
      | .error err, _ => .error err
      | _, .error err => .error err

/-! ## The session state

One `GodotEnvironment` instance.  `socket` folds the listening socket and the
accepted `client_socket` into one field, faithful to the source where the two
are only ever set and cleared together: `absent` is `self.socket is None`
(and then `client_socket` is `None` too), `fresh` is a created but unbound
socket, `connected` is bound + listening with the one client accepted. -/

inductive SockSt where
  | absent
  | fresh
  | connected
deriving Repr, DecidableEq

/-- The protocol request kinds (for the event trace). -/
inductive ReqKind where
  | initReq
  | actionReq
  | terminateReq
deriving Repr, DecidableEq

/-- Observable socket / subprocess effects, in program order. -/
inductive Ev where
  | sockCreate
  | sockBind
  | sockListen
  | sockAccept
  | sendReq (k : ReqKind)
  | sockClose
  | procLaunch (headless : Bool)
  | procWait
deriving Repr, DecidableEq

/-- The mutable state of one `GodotEnvironment` instance (the fields the
process-and-protocol layer reads and writes). -/
structure Session where
  socket : SockSt
  is_godot_launched : Bool
  is_rendering : Bool
  /-- whether `self.godot_process` holds a subprocess handle (else `None`). -/
  godot_process : Bool
  seed : Nat
  random_generator : MTState
  /-- the episode metrics accumulator `self.metrics["regions"]`. -/
  metricsRegions : List Int
  /-- the episode metrics accumulator `self.metrics["misc"]`. -/
  metricsMisc : List (List Int)
deriving Repr, DecidableEq

/-- `set_seed`: stores the seed and reseeds the generator with it. -/
def set_seed (s : Session) (seed : Nat) : Session :=
  { s with seed := seed, random_generator := mkRandomState seed }

/-- A session as `__init__` leaves it (no socket, nothing launched, rendering
defaulting to true), for a given constructor seed. -/
def baseSession (seed : Nat) : Session :=
  { socket := .absent, is_godot_launched := false, is_rendering := true,
    godot_process := false, seed := seed, random_generator := mkRandomState seed,
    metricsRegions := [], metricsMisc := [] }

/-- A session in the steady running state: process launched, connection
open — what a successful `reset` leaves behind. -/
def connectedSession : Session :=
  { baseSession 0 with socket := .connected, is_godot_launched := true, godot_process := true }

/-! ## Request construction (`_create_request`)

The request dict is built in insertion order — `initialization`, (`seed` iff
initialisation), `termination`, `render`, (`actions_data` iff neither) — and
serialised by `json.dumps(request).encode()`.  Drawing the seed advances the
session's generator. -/

def _create_request (initialization termination : Bool)
    (actions_data : Option (List ActionEntry)) (s : Session) :
    Except PyErr (List Nat × Session) :=
  match (if initialization then
           match randint randintFuel s.random_generator with
           | none => Except.error PyErr.outOfFuel
           | some (v, g') =>
               Except.ok ([jsonMember "seed" (toString v)], { s with random_generator := g' })
         else Except.ok ([], s)) with
  | .error e => .error e
  | .ok (seedMembers, s1) =>
      match (if !initialization && !termination then
               match actions_data with
               | none => Except.error PyErr.typeError
               | some l =>
                   match jsonOfActionList (_format_actions_data l) with
                   | .error e => Except.error e
                   | .ok vs => Except.ok [jsonMember "actions_data" (jsonArrStr vs)]
             else Except.ok []) with
      | .error e => .error e
      | .ok actionMembers =>
          let members := jsonMember "initialization" (jsonBool initialization) :: seedMembers
            ++ [jsonMember "termination" (jsonBool termination),
                jsonMember "render" (jsonBool s.is_rendering)]
            ++ actionMembers
          .ok (strBytes (jsonObjStr members), s1)

/-! ## The wire: receive streams and the two receive routines

A stream is the list of chunks the peer's TCP stack will hand to `recv`;
`recvChunk k` is one `sock.recv(k)`: it delivers at most `k` bytes of the
next chunk (pushing the remainder back) and delivers the empty byte string
once the stream is exhausted (peer closed). -/

abbrev Chunks := List (List Nat)

def recvChunk (k : Nat) : Chunks → List Nat × Chunks
  | [] => ([], [])
  | c :: rest => if c.length ≤ k then (c, rest) else (c.take k, c.drop k :: rest)

/-- `recvall(sock, n)` (module level in the source): accumulate `recv`
results until `n` bytes are read; `None` if an empty packet (EOF) arrives
first. -/
def recvall (n : Nat) (acc : List Nat) : Chunks → Option (List Nat) × Chunks
  | [] => if n ≤ acc.length then (some acc, []) else (none, [])
  | c :: rest =>
      if n ≤ acc.length then (some acc, c :: rest)
      else if c = [] then (none, rest)
      else if c.length ≤ n - acc.length then recvall n (acc ++ c) rest
      else (some (acc ++ c.take (n - acc.length)), c.drop (n - acc.length) :: rest)

/-- `recv_msg(sock)` (module level in the source): read the 4-byte big-endian
length header, then exactly that many body bytes; `None` (one undifferentiated
value) if the stream closes during either phase.  No JSON parsing happens
here.  Note the running code never calls this: `_get_environment_state` uses
`_wait_and_receive_states_data` below instead. -/
def recv_msg (st : Chunks) : Option (List Nat) × Chunks :=
  match recvall 4 [] st with
  | (none, st') => (none, st')
  | (some raw, st') =>
      if raw = [] then (none, st')
      else recvall (be4dec raw) [] st'

/-- `_wait_and_receive_states_data` (the receive routine `reset` and `step`
actually use, via `_get_environment_state`): loop on `recv(4096)`; a chunk is
appended only when longer than 4 bytes, and the loop stops when an appended
chunk is shorter than 4096.  The loop is bounded by fuel; `none` means it has
not terminated within the fuel (chunks of at most 4 bytes are dropped and
never satisfy the exit test, including the empty chunks of a closed peer, on
which the source spins forever). -/
def _wait_and_receive_states_data : Nat → Chunks → List Nat → Option (List Nat)
  | 0, _, _ => none
  | fuel + 1, st, total_data =>
      let (data_received, st') := recvChunk 4096 st
      if 4 < data_received.length then
        let total' := total_data ++ data_received
        if data_received.length < 4096 then some total'
        else _wait_and_receive_states_data fuel st' total'
      else _wait_and_receive_states_data fuel st' total_data

/-! ## Responses and the data path of `step`

A decoded response, as `_format_states_data` hands it to `step`/`reset`: a
per-agent list (name, state, reward, metrics), a frame count and a done flag.
The state payload is opaque to this layer (`σ`); the metrics object carries
the `region` value and the `misc` list that `step` reads unconditionally
from agent 0. -/

structure AgentMetrics where
  region : Int
  misc : List Int
deriving Repr, DecidableEq

structure AgentData (σ : Type) where
  name : String
  state : σ
  reward : ℚ
  metrics : AgentMetrics
deriving Repr, DecidableEq

structure Response (σ : Type) where
  states_data : List (AgentData σ)
  n_frames : Nat
  done : Bool
deriving Repr, DecidableEq

structure StateEntry (σ : Type) where
  name : String
  state : σ
deriving Repr, DecidableEq

structure RewardEntry where
  name : String
  reward : ℚ
deriving Repr, DecidableEq

/-- `_split_env_data`: one pass over the per-agent list building the states
view and the rewards view. -/
def _split_env_data {σ : Type} : List (AgentData σ) → List (StateEntry σ) × List RewardEntry
  | [] => ([], [])
  | a :: rest =>
      let (ss, rs) := _split_env_data rest
      (⟨a.name, a.state⟩ :: ss, ⟨a.name, a.reward⟩ :: rs)

/-- The in-place loop `rewards_data[i]["reward"] /= n_frames`: Python's true
division, which raises `ZeroDivisionError` at the first entry when
`n_frames` is 0. -/
def divRewards (n : Nat) : List RewardEntry → Except PyErr (List RewardEntry)
  | [] => .ok []
  | r :: rest =>
      if n = 0 then .error .zeroDivisionError
      else (divRewards n rest).map (fun rest' => { r with reward := r.reward / (n : ℚ) } :: rest')

/-- What `step` returns. -/
structure StepOut (σ : Type) where
  states_data : List (StateEntry σ)
  rewards_data : List RewardEntry
  done : Bool
  n_frames : Nat
deriving Repr, DecidableEq

/-- `step(actions_data)`: build and send the action request, receive the
response (the wire layer is modelled as delivering the decoded `resp`),
split it, read `states_data[0]["metrics"]` into the episode accumulator
(an `IndexError` on an agent-less response), divide each reward by the frame
count, and return states, rewards, done flag and frame count. -/
def step {σ : Type} (resp : Response σ) (actions_data : Option (List ActionEntry))
    (s : Session) : Except (PyErr × List Ev) (StepOut σ × Session × List Ev) :=
  match _create_request false false actions_data s with
  | .error e => .error (e, [])
  | .ok (_req, s1) =>
      match s1.socket with
      | SockSt.connected =>
          let tr := [Ev.sendReq ReqKind.actionReq]
          let (states_data, rewards_data) := _split_env_data resp.states_data
          match resp.states_data with
          | [] => .error (.indexError, tr)
          | a0 :: _ =>
              let s2 := { s1 with metricsRegions := s1.metricsRegions ++ [a0.metrics.region] }
              let s3 := if a0.metrics.misc.isEmpty then s2
                        else { s2 with metricsMisc := s2.metricsMisc ++ [a0.metrics.misc] }
              match divRewards resp.n_frames rewards_data with
              | .error e => .error (e, tr)
              | .ok rewards2 =>
                  .ok (⟨states_data, rewards2, resp.done, resp.n_frames⟩, s3, tr)
      | _ => .error (.attributeError, [])

/-! ## Connection and lifecycle methods -/

/-- `_initialize_socket` (so named in the source): `self.socket =
socket.socket(...)`. -/
def createSocket (s : Session) : Session × List Ev :=
  ({ s with socket := .fresh }, [Ev.sockCreate])

/-- `_wait_for_connection`: `setsockopt`, `bind`, `listen`, `accept` on
`self.socket`.  On a socket that is already bound (our `connected` state)
`bind` raises `OSError` EINVAL; on `self.socket = None` the attribute access
raises. -/
def _wait_for_connection (s : Session) : Except (PyErr × List Ev) (Session × List Ev) :=
  match s.socket with
  | .absent => .error (.attributeError, [])
  | .fresh => .ok ({ s with socket := .connected }, [.sockBind, .sockListen, .sockAccept])
  | .connected => .error (.osErrorInvalidArgument, [])

/-- `_end_connection`: `self.socket.close()` — an `AttributeError` when the
handle is `None` — then reset both socket fields. -/
def _end_connection (s : Session) : Except PyErr Session :=
  match s.socket with
  | .absent => .error .attributeError
  | _ => .ok { s with socket := .absent }

/-- `close()`: build and send `Terminate`, end the connection, wait for the
subprocess to exit, clear the launch flag. -/
def close (s : Session) : Except (PyErr × List Ev) (Session × List Ev) :=
  match _create_request false true none s with
  | .error e => .error (e, [])
  | .ok (_req, s1) =>
      match s1.socket with
      | SockSt.connected =>
          let tr := [Ev.sendReq ReqKind.terminateReq]
          match _end_connection s1 with
          | .error e => .error (e, tr)
          | .ok s2 =>
              if s2.godot_process then
                .ok ({ s2 with is_godot_launched := false }, tr ++ [Ev.sockClose, Ev.procWait])
              else .error (.attributeError, tr ++ [Ev.sockClose])
      | _ => .error (.attributeError, [])

/-- `_launch_simulation_if_needed`: spawn the subprocess (headless flags
appended when not rendering) unless already launched. -/
def _launch_simulation_if_needed (s : Session) : Session × List Ev :=
  if s.is_godot_launched then (s, [])
  else ({ s with godot_process := true, is_godot_launched := true },
        [Ev.procLaunch (!s.is_rendering)])

/-- `_change_render_type_if_needed(render)`: when the requested render flag
differs and the simulation is launched, the source creates the socket if
absent, calls `_wait_for_connection`, then `close()`; finally it records the
new render flag. -/
def _change_render_type_if_needed (render : Bool) (s : Session) :
    Except (PyErr × List Ev) (Session × List Ev) :=
  if (render != s.is_rendering) && s.is_godot_launched then
    let (s1, tr1) := if s.socket = SockSt.absent then createSocket s else (s, [])
    match _wait_for_connection s1 with
    | .error (e, tr2) => .error (e, tr1 ++ tr2)
    | .ok (s2, tr2) =>
        match close s2 with
        | .error (e, tr3) => .error (e, tr1 ++ tr2 ++ tr3)
        | .ok (s3, tr3) => .ok ({ s3 with is_rendering := render }, tr1 ++ tr2 ++ tr3)
  else .ok ({ s with is_rendering := render }, [])

/-- `reset(render)`: handle a render change, launch the simulation if needed,
open the connection if the socket is absent, send the `Init` request (fresh
seed drawn inside `_create_request`), receive the first response (modelled
as the decoded `resp`), clear the episode metrics and return the per-agent
states. -/
def reset {σ : Type} (render : Bool) (resp : Response σ) (s : Session) :
    Except (PyErr × List Ev) (List (AgentData σ) × Session × List Ev) :=
  match _change_render_type_if_needed render s with
  | .error e => .error e
  | .ok (s1, tr1) =>
      let (s2, tr2) := _launch_simulation_if_needed s1
      match (if s2.socket = SockSt.absent then
               let (sa, tra) := createSocket s2
               match _wait_for_connection sa with
               | .error (e, trb) => Except.error (e, tra ++ trb)
               | .ok (sb, trb) => Except.ok (sb, tra ++ trb)
             else Except.ok (s2, ([] : List Ev))) with
      | .error (e, tr3) => .error (e, tr1 ++ tr2 ++ tr3)
      | .ok (s3, tr3) =>
          match _create_request true false none s3 with
          | .error e => .error (e, tr1 ++ tr2 ++ tr3)
          | .ok (_req, s4) =>
              match s4.socket with
              | SockSt.connected =>
                  .ok (resp.states_data,
                       { s4 with metricsRegions := [], metricsMisc := [] },
                       tr1 ++ tr2 ++ tr3 ++ [Ev.sendReq ReqKind.initReq])
              | _ => .error (.attributeError, tr1 ++ tr2 ++ tr3)

/-! ## Concrete data for the theorems -/

/-- All scheduled chunks are nonempty: an empty chunk is reserved for the
closed-peer signal, so a stream of actual data never contains one. -/
def goodChunks (st : Chunks) : Prop := ∀ c ∈ st, c ≠ []

/-- The same bytes delivered one at a time. -/
def oneByteChunks (bs : List Nat) : Chunks := bs.map (fun b => [b])

/-- `json.dumps` text of a `Terminate` request under `render=True`. -/
def terminationJson : String :=
  "\x7b\"initialization\": false, \"termination\": true, \"render\": true\x7d"

/-- `json.dumps` text of an `Action` request for agent `Plane`, action 2. -/
def actionJson : String :=
  "\x7b\"initialization\": false, \"termination\": false, \"render\": true, \"actions_data\": [\x7b\"name\": \"Plane\", \"action\": 2\x7d]\x7d"

/-- `json.dumps` text of the `Init` request of a seed-0 session (whose
generator's first draw is 985772). -/
def initJson : String :=
  "\x7b\"initialization\": true, \"seed\": 985772, \"termination\": false, \"render\": true\x7d"

/-- A representative well-formed `Response` payload on the wire (134 bytes,
so one `recv(4096)` can deliver it whole). -/
def respBytes : List Nat :=
  strBytes "\x7b\"states_data\": [\x7b\"name\": \"Plane\", \"state\": 7, \"reward\": 8.0, \"metrics\": \x7b\"region\": 3, \"misc\": []\x7d\x7d], \"n_frames\": 4, \"done\": false\x7d"

/-- The decoded response of the end-to-end scenario: one agent `Plane`,
reward 8, 4 frames. -/
def resp1 : Response Int := ⟨[⟨"Plane", 7, 8, ⟨3, []⟩⟩], 4, false⟩

/-- The same response carrying the protocol-violating frame count 0. -/
def resp0 : Response Int := ⟨[⟨"Plane", 7, 8, ⟨3, []⟩⟩], 0, false⟩

/-- The generator state after the first draw of a seed-0 session. -/
def g0' : MTState := ⟨mtTwist (mtInit 0), 1⟩

/-! ## Helper lemmas -/

theorem be4enc_length (n : Nat) : (be4enc n).length = 4 := rfl

theorem be4enc_ne_nil (n : Nat) : be4enc n ≠ [] := by simp [be4enc]

theorem be4dec_be4enc (n : Nat) (h : n < 4294967296) : be4dec (be4enc n) = n := by
  simp [be4enc, be4dec]
  omega

theorem randint_lt (fuel : Nat) (g : MTState) (v : Nat) (g' : MTState)
    (h : randint fuel g = some (v, g')) : v < 1000000 := by
  induction fuel generalizing g with
  | zero => rw [randint] at h; cases h
  | succ fuel ih =>
      rw [randint] at h
      by_cases hc : (mtNext g).1 &&& 1048575 ≤ 999999
      · simp only [hc, if_pos] at h
        cases h
        omega
      · simp only [hc, if_neg, not_false_iff] at h
        exact ih _ h

theorem initSeeds_lt (fuel : Nat) : ∀ (k : Nat) (g : MTState) (l : List Nat),
    initSeeds fuel g k = some l → ∀ v ∈ l, v < 1000000 := by
  intro k
  induction k with
  | zero =>
      intro g l h v hv
      rw [initSeeds] at h
      cases h
      simp at hv
  | succ k ih =>
      intro g l h v hv
      cases hr : randint fuel g with
      | none => rw [initSeeds, hr] at h; cases h
      | some p =>
          obtain ⟨w, g2⟩ := p
          have hstep : initSeeds fuel g (k + 1) = Option.map (w :: ·) (initSeeds fuel g2 k) := by
            rw [initSeeds, hr]
          rw [hstep] at h
          cases hrest : initSeeds fuel g2 k with
          | none => rw [hrest] at h; cases h
          | some rest =>
              rw [hrest] at h
              simp only [Option.map] at h
              cases h
              rcases List.mem_cons.mp hv with h1 | h2
              · subst h1; exact randint_lt fuel g v g2 hr
              · exact ih g2 rest hrest v h2

theorem split_eq_map {σ : Type} (l : List (AgentData σ)) :
    _split_env_data l =
      (l.map (fun a => ⟨a.name, a.state⟩), l.map (fun a => ⟨a.name, a.reward⟩)) := by
  induction l with
  | nil => rfl
  | cons a rest ih => simp [_split_env_data, ih]

theorem divRewards_ok (n : Nat) (hn : n ≠ 0) (l : List RewardEntry) :
    divRewards n l = .ok (l.map (fun r => { r with reward := r.reward / (n : ℚ) })) := by
  induction l with
  | nil => rfl
  | cons r rest ih => simp [divRewards, hn, ih, Except.map]

theorem jsonOfActionList_format_ok (l : List ActionEntry) :
    ∃ vs, jsonOfActionList (_format_actions_data l) = .ok vs := by
  induction l with
  | nil => exact ⟨[], rfl⟩
  | cons e rest ih =>
      obtain ⟨vs, hvs⟩ := ih
      cases ha : e.action with
      | npInt n =>
          refine ⟨jsonObjStr [jsonMember "name" (jsonString e.name),
            jsonMember "action" (toString n)] :: vs, ?_⟩
          simp [_format_actions_data, ha, jsonOfActionList, hvs,
            jsonOfActionEntry, jsonOfActionVal, Except.map]
      | pyInt n =>
          refine ⟨jsonObjStr [jsonMember "name" (jsonString e.name),
            jsonMember "action" (toString n)] :: vs, ?_⟩
          simp [_format_actions_data, ha, jsonOfActionList, hvs,
            jsonOfActionEntry, jsonOfActionVal, Except.map]
      | pyFloat r =>
          refine ⟨jsonObjStr [jsonMember "name" (jsonString e.name),
            jsonMember "action" r] :: vs, ?_⟩
          simp [_format_actions_data, ha, jsonOfActionList, hvs,
            jsonOfActionEntry, jsonOfActionVal, Except.map]
      | pyStr str =>
          refine ⟨jsonObjStr [jsonMember "name" (jsonString e.name),
            jsonMember "action" (jsonString str)] :: vs, ?_⟩
          simp [_format_actions_data, ha, jsonOfActionList, hvs,
            jsonOfActionEntry, jsonOfActionVal, Except.map]

theorem create_request_action_ok (l : List ActionEntry) (s : Session) :
    ∃ bs, _create_request false false (some l) s = .ok (bs, s) := by
  obtain ⟨vs, hvs⟩ := jsonOfActionList_format_ok l
  simp [_create_request, hvs]

theorem wait_receive_small_chunks (fuel : Nat) :
    ∀ (st : Chunks) (acc : List Nat), (∀ c ∈ st, c.length ≤ 4) →
      _wait_and_receive_states_data fuel st acc = none := by
  induction fuel with
  | zero => intro st acc _; rfl
  | succ fuel ih =>
      intro st acc h
      cases st with
      | nil =>
          rw [_wait_and_receive_states_data]
          simp [recvChunk]
          exact ih [] acc (by simp)
      | cons c rest =>
          have hc : c.length ≤ 4 := h c (by simp)
          have hc2 : c.length ≤ 4096 := by omega
          rw [_wait_and_receive_states_data]
          simp only [recvChunk, if_pos hc2]
          rw [if_neg (by omega : ¬ 4 < c.length)]
          exact ih rest acc (fun x hx => h x (by simp [hx]))

theorem recvall_complete (st : Chunks) : ∀ (acc : List Nat) (n : Nat),
    goodChunks st → n ≤ acc.length + st.flatten.length →
    (recvall n acc st).1 = some (acc ++ st.flatten.take (n - acc.length))
  ∧ goodChunks (recvall n acc st).2
  ∧ (recvall n acc st).2.flatten = st.flatten.drop (n - acc.length) := by
  induction st with
  | nil =>
      intro acc n _ hlen
      simp at hlen
      simp [recvall, hlen, goodChunks]
  | cons c rest ih =>
      intro acc n hg hlen
      have hc : c ≠ [] := hg c (by simp)
      have hgr : goodChunks rest := fun x hx => hg x (by simp [hx])
      by_cases h1 : n ≤ acc.length
      · have h0 : n - acc.length = 0 := by omega
        simp [recvall, h1, h0]
        exact hg
      · have hflat : (c :: rest).flatten.length = c.length + rest.flatten.length := by
          simp
        by_cases h2 : c.length ≤ n - acc.length
        · rw [recvall]
          rw [if_neg h1, if_neg hc, if_pos h2]
          have hlen' : n ≤ (acc ++ c).length + rest.flatten.length := by
            simp only [List.length_append]
            omega
          obtain ⟨ha, hb, hcc⟩ := ih (acc ++ c) n hgr hlen'
          refine ⟨?_, hb, ?_⟩
          · rw [ha]
            simp only [List.flatten_cons, List.take_append_eq_append_take,
              List.take_of_length_le h2, List.append_assoc, List.length_append, Nat.sub_sub]
          · rw [hcc]
            simp only [List.flatten_cons, List.drop_append_eq_append_drop,
              List.drop_eq_nil_of_le h2, List.nil_append, List.length_append, Nat.sub_sub]
        · rw [recvall]
          rw [if_neg h1, if_neg hc, if_neg h2]
          have hlt : n - acc.length < c.length := by omega
          refine ⟨?_, ?_, ?_⟩
          · simp only [List.flatten_cons, List.take_append_eq_append_take,
              Nat.sub_eq_zero_of_le (Nat.le_of_lt hlt), List.take_zero, List.append_nil]
          · intro x hx
            rcases List.mem_cons.mp hx with h3 | h4
            · subst h3
              have hdl : (c.drop (n - acc.length)).length = c.length - (n - acc.length) := by
                simp
              intro hnil
              rw [hnil] at hdl
              simp at hdl
              omega
            · exact hgr x h4
          · simp only [List.flatten_cons, List.drop_append_eq_append_drop,
              Nat.sub_eq_zero_of_le (Nat.le_of_lt hlt), List.drop_zero]

theorem recvall_incomplete (st : Chunks) : ∀ (acc : List Nat) (n : Nat),
    goodChunks st → acc.length + st.flatten.length < n →
    (recvall n acc st).1 = none := by
  induction st with
  | nil =>
      intro acc n _ hlen
      simp only [List.flatten_nil, List.length_nil, Nat.add_zero] at hlen
      rw [recvall, if_neg (by omega)]
  | cons c rest ih =>
      intro acc n hg hlen
      have hc : c ≠ [] := hg c (by simp)
      have hgr : goodChunks rest := fun x hx => hg x (by simp [hx])
      have hflat : (c :: rest).flatten.length = c.length + rest.flatten.length := by
        simp
      have h1 : ¬ n ≤ acc.length := by omega
      have h2 : c.length ≤ n - acc.length := by omega
      rw [recvall, if_neg h1, if_neg hc, if_pos h2]
      refine ih (acc ++ c) n hgr ?_
      simp only [List.length_append]
      omega

theorem recv_msg_header (st : Chunks) (blen : Nat) (rest : List Nat)
    (hg : goodChunks st) (hb : blen < 4294967296)
    (hfl : st.flatten = be4enc blen ++ rest) :
    (recv_msg st).1 = (recvall blen [] (recvall 4 [] st).2).1
  ∧ goodChunks (recvall 4 [] st).2
  ∧ (recvall 4 [] st).2.flatten = rest := by
  have hlen4 : 4 ≤ ([] : List Nat).length + st.flatten.length := by
    rw [hfl]
    simp [be4enc]
  obtain ⟨h1, h2, h3⟩ := recvall_complete st [] 4 hg hlen4
  simp only [List.nil_append, List.length_nil, Nat.sub_zero] at h1 h3
  have htake : st.flatten.take 4 = be4enc blen := by
    rw [hfl]
    exact List.take_left' (be4enc_length blen)
  have hdrop : st.flatten.drop 4 = rest := by
    rw [hfl]
    exact List.drop_left' (be4enc_length blen)
  rw [htake] at h1
  rw [hdrop] at h3
  refine ⟨?_, h2, h3⟩
  have e1 : recvall 4 [] st = (some (be4enc blen), (recvall 4 [] st).2) := by
    rw [← h1]
  unfold recv_msg
  rw [e1]
  dsimp only
  rw [if_neg (be4enc_ne_nil blen), be4dec_be4enc blen hb]

/-! ## The claims -/

/-- C1 (code bug): the spec's Message Codec requires every outgoing request
to be a 4-byte big-endian length header followed by the UTF-8 JSON bytes;
`_create_request` instead returns `json.dumps(request).encode()`, the bare
JSON bytes with no header, for all three request kinds.  Each request below
is the exact unframed JSON text, and none passes the spec's frame-shape test
`isSpecFramed`. -/
theorem C1_requests_are_bare_json :
    _create_request false true none connectedSession
        = .ok (strBytes terminationJson, connectedSession)
  ∧ isSpecFramed (strBytes terminationJson) = false
  ∧ _create_request false false (some [⟨"Plane", ActVal.pyInt 2⟩]) connectedSession
        = .ok (strBytes actionJson, connectedSession)
  ∧ isSpecFramed (strBytes actionJson) = false
  ∧ _create_request true false none connectedSession
        = .ok (strBytes initJson, { connectedSession with random_generator := g0' })
  ∧ isSpecFramed (strBytes initJson) = false := by
  exact ⟨rfl, rfl, rfl, rfl, rfl, rfl⟩

/-- C2 (code bug): the receive loop `reset` and `step` actually use keeps a
chunk only when it is longer than 4 bytes, so a well-formed response payload
delivered in one chunk is returned whole, while the same payload delivered
one byte at a time is dropped chunk by chunk and the loop never terminates
(no fuel suffices) — decoding is not chunk-size independent. -/
theorem C2_receive_depends_on_chunking :
    _wait_and_receive_states_data 1 [respBytes] [] = some respBytes
  ∧ ∀ fuel : Nat, _wait_and_receive_states_data fuel (oneByteChunks respBytes) [] = none := by
  constructor
  · rfl
  · intro fuel
    refine wait_receive_small_chunks fuel (oneByteChunks respBytes) [] ?_
    intro c hc
    simp only [oneByteChunks, List.mem_map] at hc
    obtain ⟨b, _, rfl⟩ := hc
    simp

/-- C3 counterexample: `recv_msg` does not fail with distinct typed errors —
a stream closed before the 4-byte header and a stream closed in the middle
of the body produce the identical result value (`None`), and a frame whose
body is not JSON text at all (bytes of `"xy"`) is returned raw with no parse
step, so no `MalformedPayload` can arise inside the frame reader. -/
theorem C3_counterexample_untyped_failures :
    recv_msg [] = recv_msg [[0, 0, 0, 10], [1, 2, 3]]
  ∧ recv_msg [] = (none, [])
  ∧ (recv_msg (oneByteChunks ([0, 0, 0, 2] ++ [120, 121]))).1 = some [120, 121] := by
  exact ⟨rfl, rfl, rfl⟩

/-- C3 (as amended): `recv_msg` reads exactly one frame — the 4-byte
big-endian length header, then exactly that many body bytes — for every
chunking of the stream, and returns `None` (one undifferentiated value, not
typed `IncompleteHeader`/`TruncatedBody` errors) when the stream closes
during either phase; it performs no JSON parsing. -/
theorem C3_recv_msg_reads_one_frame :
    (∀ (st : Chunks) (blen : Nat) (body extra : List Nat),
        goodChunks st → blen < 4294967296 → body.length = blen →
        st.flatten = be4enc blen ++ (body ++ extra) →
        (recv_msg st).1 = some body)
  ∧ (∀ st : Chunks, goodChunks st → st.flatten.length < 4 → (recv_msg st).1 = none)
  ∧ (∀ (st : Chunks) (blen : Nat) (trunc : List Nat),
        goodChunks st → blen < 4294967296 →
        st.flatten = be4enc blen ++ trunc → trunc.length < blen →
        (recv_msg st).1 = none) := by
  refine ⟨?_, ?_, ?_⟩
  · intro st blen body extra hg hb hbl hfl
    obtain ⟨hmsg, h2, h3⟩ := recv_msg_header st blen (body ++ extra) hg hb hfl
    rw [hmsg]
    obtain ⟨g1, _, _⟩ := recvall_complete ((recvall 4 [] st).2) [] blen h2
      (by rw [h3]; simp [hbl])
    simp only [List.nil_append, List.length_nil, Nat.sub_zero] at g1
    rw [g1, h3, List.take_left' hbl]
  · intro st hg hlen
    have h := recvall_incomplete st [] 4 hg (by simpa using hlen)
    rcases hrec : recvall 4 [] st with ⟨fst, snd⟩
    rw [hrec] at h
    have hf : fst = none := h
    unfold recv_msg
    rw [hrec, hf]
  · intro st blen trunc hg hb hfl htr
    obtain ⟨hmsg, h2, h3⟩ := recv_msg_header st blen trunc hg hb hfl
    rw [hmsg]
    refine recvall_incomplete _ [] blen h2 ?_
    rw [h3]
    simpa using htr

/-- C3 witness: the frame reader at concrete streams — a frame delivered one
byte at a time with trailing data, a stream closed during the header, and a
stream closed during the body. -/
theorem C3_recv_msg_reads_one_frame_witness :
    (recv_msg (oneByteChunks (be4enc 3 ++ ([9, 8, 7] ++ [42])))).1 = some [9, 8, 7]
  ∧ (recv_msg [[0, 0]]).1 = none
  ∧ (recv_msg [[0, 0, 0, 10], [1, 2, 3]]).1 = none := by
  refine ⟨?_, ?_, ?_⟩
  · exact C3_recv_msg_reads_one_frame.1 (oneByteChunks (be4enc 3 ++ ([9, 8, 7] ++ [42])))
      3 [9, 8, 7] [42] (by unfold goodChunks; decide) (by omega) rfl (by decide)
  · exact C3_recv_msg_reads_one_frame.2.1 [[0, 0]] (by unfold goodChunks; decide) (by decide)
  · exact C3_recv_msg_reads_one_frame.2.2 [[0, 0, 0, 10], [1, 2, 3]] 10 [1, 2, 3]
      (by unfold goodChunks; decide) (by omega) (by decide) (by decide)

/-- C4 counterexample: for a response with `n_frames = 4` but no agents,
`step` does not return at all — `env_data["states_data"][0]["metrics"]`
raises `IndexError` — so the claim's "for every Response with n_frames ≥ 1"
fails on the agent-less response. -/
theorem C4_counterexample_empty_response :
    step (⟨[], 4, true⟩ : Response Int) (some []) connectedSession
      = .error (.indexError, [Ev.sendReq ReqKind.actionReq]) := rfl

/-- C4 (as amended): for every response with at least one agent and
`n_frames ≥ 1`, `step` returns the states view, the rewards view with every
agent's reward divided by `n_frames`, and the response's done flag and
frame count unchanged. -/
theorem C4_step_divides_rewards {σ : Type} (resp : Response σ)
    (l : List ActionEntry) (s : Session)
    (hne : resp.states_data ≠ []) (hn : 1 ≤ resp.n_frames)
    (hs : s.socket = SockSt.connected) :
    ∃ out s', step resp (some l) s = .ok (out, s', [Ev.sendReq ReqKind.actionReq])
      ∧ out.states_data = resp.states_data.map (fun a => ⟨a.name, a.state⟩)
      ∧ out.rewards_data
          = resp.states_data.map (fun a => ⟨a.name, a.reward / (resp.n_frames : ℚ)⟩)
      ∧ out.done = resp.done
      ∧ out.n_frames = resp.n_frames := by
  obtain ⟨bs, hbs⟩ := create_request_action_ok l s
  have hn0 : resp.n_frames ≠ 0 := by omega
  cases hsd : resp.states_data with
  | nil => exact absurd hsd hne
  | cons a0 arest =>
      by_cases hm : a0.metrics.misc.isEmpty
      · refine ⟨⟨(a0 :: arest).map (fun a => ⟨a.name, a.state⟩),
                 (a0 :: arest).map (fun a => ⟨a.name, a.reward / (resp.n_frames : ℚ)⟩),
                 resp.done, resp.n_frames⟩,
                { s with metricsRegions := s.metricsRegions ++ [a0.metrics.region] },
                ?_, rfl, rfl, rfl, rfl⟩
        simp [step, hbs, hs, hsd, split_eq_map, divRewards_ok _ hn0, hm, List.map_map]
      · refine ⟨⟨(a0 :: arest).map (fun a => ⟨a.name, a.state⟩),
                 (a0 :: arest).map (fun a => ⟨a.name, a.reward / (resp.n_frames : ℚ)⟩),
                 resp.done, resp.n_frames⟩,
                { s with metricsRegions := s.metricsRegions ++ [a0.metrics.region],
                         metricsMisc := s.metricsMisc ++ [a0.metrics.misc] },
                ?_, rfl, rfl, rfl, rfl⟩
        simp [step, hbs, hs, hsd, split_eq_map, divRewards_ok _ hn0, hm, List.map_map]

/-- C4 witness: the end-to-end scenario — one agent `Plane` with reward 8
over 4 frames steps to reward 2, done and frame count unchanged. -/
theorem C4_step_divides_rewards_witness :
    ∃ out s', step resp1 (some [⟨"Plane", ActVal.pyInt 2⟩]) connectedSession
        = .ok (out, s', [Ev.sendReq ReqKind.actionReq])
      ∧ out.states_data = resp1.states_data.map (fun a => ⟨a.name, a.state⟩)
      ∧ out.rewards_data
          = resp1.states_data.map (fun a => ⟨a.name, a.reward / (resp1.n_frames : ℚ)⟩)
      ∧ out.done = resp1.done
      ∧ out.n_frames = resp1.n_frames :=
  C4_step_divides_rewards resp1 [⟨"Plane", ActVal.pyInt 2⟩] connectedSession
    (by simp [resp1]) (by simp [resp1]) rfl

/-- C5 counterexample: a one-agent response with `n_frames = 0` makes `step`
fail with `ZeroDivisionError` raised by the reward division itself — the
division is attempted, and the error is not the spec's `ProtocolViolation`. -/
theorem C5_counterexample_zero_frames :
    step resp0 (some [⟨"Plane", ActVal.pyInt 2⟩]) connectedSession
      = .error (.zeroDivisionError, [Ev.sendReq ReqKind.actionReq])
  ∧ PyErr.zeroDivisionError ≠ PyErr.protocolViolation := by
  exact ⟨rfl, by decide⟩

/-- C5 (as amended): whenever a response with at least one agent carries
`n_frames = 0`, `step` fails with the untyped `ZeroDivisionError` from
performing the reward division; no `ProtocolViolation` check exists. -/
theorem C5_zero_frames_divides_and_fails {σ : Type} (resp : Response σ)
    (l : List ActionEntry) (s : Session)
    (hne : resp.states_data ≠ []) (h0 : resp.n_frames = 0)
    (hs : s.socket = SockSt.connected) :
    step resp (some l) s = .error (.zeroDivisionError, [Ev.sendReq ReqKind.actionReq]) := by
  obtain ⟨bs, hbs⟩ := create_request_action_ok l s
  cases hsd : resp.states_data with
  | nil => exact absurd hsd hne
  | cons a0 arest =>
      by_cases hm : a0.metrics.misc.isEmpty <;>
        simp [step, hbs, hs, hsd, split_eq_map, h0, divRewards, hm]

/-- C5 witness: the amended statement at the concrete zero-frame response. -/
theorem C5_zero_frames_divides_and_fails_witness :
    step resp0 (some [⟨"Plane", ActVal.pyInt 2⟩]) connectedSession
      = .error (.zeroDivisionError, [Ev.sendReq ReqKind.actionReq]) :=
  C5_zero_frames_divides_and_fails resp0 [⟨"Plane", ActVal.pyInt 2⟩] connectedSession
    (by simp [resp0]) rfl rfl

/-- C6: splitting a response's per-agent list yields the states view and the
rewards view over exactly the same agents in exactly the same order, names
carried through unchanged. -/
theorem C6_split_preserves_agent_order (σ : Type) (l : List (AgentData σ)) :
    _split_env_data l
      = (l.map (fun a => ⟨a.name, a.state⟩), l.map (fun a => ⟨a.name, a.reward⟩))
  ∧ (_split_env_data l).1.map StateEntry.name = l.map AgentData.name
  ∧ (_split_env_data l).2.map RewardEntry.name = l.map AgentData.name := by
  refine ⟨split_eq_map l, ?_, ?_⟩ <;> simp [split_eq_map l, List.map_map, Function.comp]

/-- C7 (code bug): on a running, connected session whose recorded render
mode is `True`, `reset(render=False)` does not tear down and relaunch: the
source calls `_wait_for_connection` — `bind` on the already-bound listening
socket, which raises `OSError` (EINVAL) — *before* `close()`, so the call
fails with an empty effect trace: no `Terminate` is sent and nothing is
relaunched. -/
theorem C7_render_change_rebinds_and_fails :
    connectedSession.is_rendering = true
  ∧ connectedSession.is_godot_launched = true
  ∧ connectedSession.socket = SockSt.connected
  ∧ reset false (⟨[], 1, false⟩ : Response Int) connectedSession
      = .error (.osErrorInvalidArgument, []) := by
  exact ⟨rfl, rfl, rfl, rfl⟩

/-- C8 counterexample: calling `_end_connection` when the socket handle is
absent raises `AttributeError` (`None.close()`), not a no-op. -/
theorem C8_counterexample_teardown_raises :
    _end_connection (baseSession 0) = .error .attributeError := rfl

/-- C8 (as amended): `_end_connection` raises `AttributeError` when the
socket handle is absent; only when a handle is present does it close it and
reset both handles, leaving the rest of the session unchanged. -/
theorem C8_end_connection_behaviour (s : Session) :
    (s.socket = SockSt.absent → _end_connection s = .error .attributeError)
  ∧ (s.socket ≠ SockSt.absent → _end_connection s = .ok { s with socket := SockSt.absent }) := by
  constructor
  · intro h
    simp [_end_connection, h]
  · intro h
    cases hs : s.socket with
    | absent => exact absurd hs h
    | fresh => simp [_end_connection, hs]
    | connected => simp [_end_connection, hs]

/-- C8 witness: both branches at concrete sessions. -/
theorem C8_end_connection_behaviour_witness :
    _end_connection (baseSession 3) = .error .attributeError
  ∧ _end_connection connectedSession = .ok { connectedSession with socket := SockSt.absent } :=
  ⟨(C8_end_connection_behaviour (baseSession 3)).1 rfl,
   (C8_end_connection_behaviour connectedSession).2 (by decide)⟩

/-- C9 counterexample: a session's own seed is not confined to `[0, 10^5)` —
`set_seed` (and the constructor's `seed` argument) accept any integer, here
`10^5` itself. -/
theorem C9_counterexample_session_seed_range :
    (set_seed (baseSession 0) 100000).seed = 100000
  ∧ ¬ (set_seed (baseSession 0) 100000).seed < 100000 := by
  exact ⟨rfl, by decide⟩

/-- C9 (as amended): each Init request's seed is a fresh draw in
`[0, 10^6)` from the session's generator, deterministically seeded, and the
draw advances the generator state; sessions with equal seeds produce
identical Init-seed sequences.  (The default session seed is drawn from
`[0, 10^5)`, but explicit seeds are unrestricted, and pairwise distinctness
of successive draws is statistical rather than guaranteed.) -/
theorem C9_init_seed_mechanism :
    (∀ (s1 s2 : Session) (seedv k fuel : Nat),
        initSeeds fuel (set_seed s1 seedv).random_generator k
          = initSeeds fuel (set_seed s2 seedv).random_generator k)
  ∧ (∀ (fuel k : Nat) (g : MTState) (l : List Nat),
        initSeeds fuel g k = some l → ∀ v ∈ l, v < 1000000)
  ∧ (∀ (s : Session) (v : Nat) (g' : MTState),
        randint randintFuel s.random_generator = some (v, g') →
        _create_request true false none s
          = .ok (strBytes (jsonObjStr
              [jsonMember "initialization" (jsonBool true),
               jsonMember "seed" (toString v),
               jsonMember "termination" (jsonBool false),
               jsonMember "render" (jsonBool s.is_rendering)]),
              { s with random_generator := g' })) := by
  refine ⟨?_, ?_, ?_⟩
  · intro s1 s2 seedv k fuel
    simp [set_seed]
  · intro fuel k g l h
    exact initSeeds_lt fuel k g l h
  · intro s v g' hr
    simp [_create_request, hr]

/-- C9 witness: equal-seed sessions coincide; the seed-0 session's first
draw 985772 is below `10^6`; the concrete Init request embeds it and
advances the generator. -/
theorem C9_init_seed_mechanism_witness :
    initSeeds 10 (set_seed (baseSession 0) 42).random_generator 3
      = initSeeds 10 (set_seed (baseSession 7) 42).random_generator 3
  ∧ 985772 < 1000000
  ∧ _create_request true false none connectedSession
      = .ok (strBytes initJson, { connectedSession with random_generator := g0' }) := by
  refine ⟨C9_init_seed_mechanism.1 (baseSession 0) (baseSession 7) 42 3 10, ?_, ?_⟩
  · exact C9_init_seed_mechanism.2.1 randintFuel 1 (mkRandomState 0) [985772] rfl
      985772 (by simp)
  · exact (C9_init_seed_mechanism.2.2 connectedSession 985772 g0' rfl).trans rfl

/-- C10: `_format_actions_data` (run by `_create_request` before
serialisation, and assigning into the caller's own list) replaces exactly
the numpy-integer action values by plain ints of the same value, leaves
every other entry — floats and strings included — untouched in place, is
idempotent, and the action request always serialises without any error. -/
theorem C10_format_actions_inplace (l : List ActionEntry) :
    _format_actions_data l
      = l.map (fun e => match e.action with
          | ActVal.npInt n => { e with action := ActVal.pyInt n }
          | _ => e)
  ∧ _format_actions_data (_format_actions_data l) = _format_actions_data l
  ∧ ∀ s : Session, ∃ bs, _create_request false false (some l) s = .ok (bs, s) := by
  refine ⟨?_, ?_, fun s => create_request_action_ok l s⟩
  · induction l with
    | nil => rfl
    | cons e rest ih =>
        cases he : e.action <;> simp [_format_actions_data, he, ih]
  · induction l with
    | nil => rfl
    | cons e rest ih =>
        cases he : e.action <;> simp [_format_actions_data, he, ih]

end GodotInterface
